import Mathlib

/-!
Verification of the `fluids` core module (`fluids/core.py`).

The multi-route dimensionless-group functions are embedded over `ℚ`
(exact arithmetic); optional keyword arguments become `Option ℚ` with
Python numeric truthiness (`None` and `0` are falsy), and a raised
`Exception` becomes `Except.error` carrying the exact message string
from the source.  The functions built from `sqrt` and `sin`
(`Froude`, `Froude_densimetric`, `gravity`) are embedded over `ℝ`.
-/

namespace Fluids

/-- Python truthiness of an optional numeric argument: an absent
argument (`None`) and the value `0` are falsy, every other number is
truthy. -/
def truthy : Option ℚ → Bool
  | none => false
  | some v => v != 0

/-- The numeric value of an optional argument (meaningful only when the
argument was supplied). -/
def getv (o : Option ℚ) : ℚ := o.getD 0

/-- Whether an `Except` result is the error case. -/
def isErr {α : Type} : Except String α → Bool
  | Except.error _ => true
  | Except.ok _ => false

/-- `mentions pat msg` holds when `pat` occurs as a contiguous substring
of `msg`. -/
def mentions (pat msg : String) : Bool := decide (pat.data <:+: msg.data)

/- Exact message strings of the `raise Exception(...)` statements in the
source (Python backslash line continuations inside the string literals
preserve the indentation of the continuation line). -/

/-- Message raised by `Reynolds` (core.py lines 182-183). -/
def reynolds_msg : String := "Either density and viscosity, or dynamic viscosity,          is needed"

/-- Message raised by `Peclet_heat` (lines 244-245) and `Graetz_heat`
(lines 452-453). -/
def peclet_msg : String := "Either heat capacity and thermal conductivity and        density, or thermal diffusivity is needed"

/-- Message raised by `Fourier_heat` (lines 346-347). -/
def fourier_msg : String := "Either heat capacity and thermal conductivity and density, or thermal diffusivity is needed"

/-- Message raised by `Schmidt` (line 512). -/
def schmidt_msg : String := "Insufficient information provided for Schmidt number calculation"

/-- Message raised by `Lewis` (line 573). -/
def lewis_msg : String := "Insufficient information provided for Le calculation"

/-- Message raised by `Prandtl` (line 876). -/
def prandtl_msg : String := "Insufficient information provided for Pr calculation"

/-- Message raised by `Grashof` (lines 944-945); identical text to the
`Reynolds` message. -/
def grashof_msg : String := reynolds_msg

/-- Message raised by `nu_mu_converter` (line 2195). -/
def numu_msg : String := "Inputs must be rho and one of mu and nu."

/-- Words used below to check which error messages name the acceptable
input sets. -/
def density_w : String := "density"

def viscosity_w : String := "viscosity"

def dynamic_viscosity_w : String := "dynamic viscosity"

def heat_capacity_w : String := "heat capacity"

def thermal_conductivity_w : String := "thermal conductivity"

def thermal_diffusivity_w : String := "thermal diffusivity"

def diffusivity_w : String := "diffusivity"

/-- `Reynolds(V, D, rho=None, mu=None, nu=None)`, core.py 128-184:
`if rho and mu: nu = mu/rho; elif not nu: raise ...; return V*D/nu`. -/
def Reynolds (V D : ℚ) (rho mu nu : Option ℚ) : Except String ℚ :=
  if truthy rho && truthy mu then
    Except.ok (V * D / (getv mu / getv rho))
  else if !truthy nu then
    Except.error reynolds_msg
  else
    Except.ok (V * D / getv nu)

/-- `Peclet_heat(V, L, rho=None, Cp=None, k=None, alpha=None)`, core.py
187-246: `if rho and Cp and k: alpha = k/(rho*Cp); elif not alpha:
raise ...; return V*L/alpha`. -/
def Peclet_heat (V L : ℚ) (rho Cp k alpha : Option ℚ) : Except String ℚ :=
  if truthy rho && truthy Cp && truthy k then
    Except.ok (V * L / (getv k / (getv rho * getv Cp)))
  else if !truthy alpha then
    Except.error peclet_msg
  else
    Except.ok (V * L / getv alpha)

/-- `Fourier_heat(t, L, rho=None, Cp=None, k=None, alpha=None)`, core.py
288-348: `if rho and Cp and k: alpha = k/(rho*Cp); elif not alpha:
raise ...; return t*alpha/L**2`. -/
def Fourier_heat (t L : ℚ) (rho Cp k alpha : Option ℚ) : Except String ℚ :=
  if truthy rho && truthy Cp && truthy k then
    Except.ok (t * (getv k / (getv rho * getv Cp)) / L ^ 2)
  else if !truthy alpha then
    Except.error fourier_msg
  else
    Except.ok (t * getv alpha / L ^ 2)

/-- `Graetz_heat(V, D, x, rho=None, Cp=None, k=None, alpha=None)`,
core.py 390-455: `if rho and Cp and k: alpha = k/(rho*Cp); elif not
alpha: raise ...; return V*D**2/(x*alpha)`. -/
def Graetz_heat (V D x : ℚ) (rho Cp k alpha : Option ℚ) : Except String ℚ :=
  if truthy rho && truthy Cp && truthy k then
    Except.ok (V * D ^ 2 / (x * (getv k / (getv rho * getv Cp))))
  else if !truthy alpha then
    Except.error peclet_msg
  else
    Except.ok (V * D ^ 2 / (x * getv alpha))

/-- `Schmidt(D, mu=None, nu=None, rho=None)`, core.py 457-512:
`if rho and mu: return mu/(rho*D); elif nu: return nu/D; else raise`. -/
def Schmidt (D : ℚ) (mu nu rho : Option ℚ) : Except String ℚ :=
  if truthy rho && truthy mu then
    Except.ok (getv mu / (getv rho * D))
  else if truthy nu then
    Except.ok (getv nu / D)
  else
    Except.error schmidt_msg

/-- `Lewis(D=None, alpha=None, Cp=None, k=None, rho=None)`, core.py
515-574: `if k and Cp and rho: alpha = k/(rho*Cp); elif alpha: pass;
else raise; return alpha/D`. -/
def Lewis (D alpha Cp k rho : Option ℚ) : Except String ℚ :=
  if truthy k && truthy Cp && truthy rho then
    Except.ok (getv k / (getv rho * getv Cp) / getv D)
  else if truthy alpha then
    Except.ok (getv alpha / getv D)
  else
    Except.error lewis_msg

/-- `Prandtl(Cp=None, k=None, mu=None, nu=None, rho=None, alpha=None)`,
core.py 811-877: three routes tried in order `k and Cp and mu`, then
`nu and rho and Cp and k`, then `nu and alpha`. -/
def Prandtl (Cp k mu nu rho alpha : Option ℚ) : Except String ℚ :=
  if truthy k && truthy Cp && truthy mu then
    Except.ok (getv Cp * getv mu / getv k)
  else if truthy nu && truthy rho && truthy Cp && truthy k then
    Except.ok (getv nu * getv rho * getv Cp / getv k)
  else if truthy nu && truthy alpha then
    Except.ok (getv nu / getv alpha)
  else
    Except.error prandtl_msg

/-- `Grashof(L, beta, T1, T2=0, rho=None, mu=None, nu=None, g=g)`,
core.py 879-946: `if rho and mu: nu = mu/rho; elif not nu: raise ...;
return g*beta*abs(T2-T1)*L**3/nu**2`.  The Python default `T2=0` is
applied at each call site below. -/
def Grashof (L beta T1 T2 : ℚ) (rho mu nu : Option ℚ) (g : ℚ) : Except String ℚ :=
  if truthy rho && truthy mu then
    Except.ok (g * beta * abs (T2 - T1) * L ^ 3 / (getv mu / getv rho) ^ 2)
  else if !truthy nu then
    Except.error grashof_msg
  else
    Except.ok (g * beta * abs (T2 - T1) * L ^ 3 / getv nu ^ 2)

/-- `nu_mu_converter(rho, mu=None, nu=None)`, core.py 2158-2199:
`if (nu and mu) or not rho or (not nu and not mu): raise ...;
if mu: return mu/rho; elif nu: return nu*rho`.  After the guard exactly
one of `mu`, `nu` is truthy, so the implicit fall-through returning
`None` in the source is unreachable and the final branch here is taken
exactly when `nu` alone is truthy. -/
def nu_mu_converter (rho : ℚ) (mu nu : Option ℚ) : Except String ℚ :=
  if (truthy nu && truthy mu) || !(rho != 0) || (!truthy nu && !truthy mu) then
    Except.error numu_msg
  else if truthy mu then
    Except.ok (getv mu / rho)
  else
    Except.ok (getv nu * rho)

/-- `dP_from_K(K, rho, V)`, core.py 2367-2398: `return K*0.5*rho*V*V`. -/
def dP_from_K (K rho V : ℚ) : ℚ := K * 0.5 * rho * V * V

/- Temperature conversions, core.py 2514-2866 (`np.asanyarray` on a
scalar is the identity, so the scalar case is plain arithmetic). -/

/-- `zero_Celsius = 273.15`, core.py 2514. -/
def zero_Celsius : ℚ := 273.15

/-- `C2K(C) = C + zero_Celsius`, core.py 2545. -/
def C2K (C : ℚ) : ℚ := C + zero_Celsius

/-- `K2C(K) = K - zero_Celsius`, core.py 2574. -/
def K2C (K : ℚ) : ℚ := K - zero_Celsius

/-- `F2C(F) = (F - 32.0) / 1.8`, core.py 2602. -/
def F2C (F : ℚ) : ℚ := (F - 32) / 1.8

/-- `C2F(C) = 1.8 * C + 32.0`, core.py 2630. -/
def C2F (C : ℚ) : ℚ := 1.8 * C + 32

/-- `F2K(F) = (F - 32.0)/1.8 + zero_Celsius`, core.py 2660. -/
def F2K (F : ℚ) : ℚ := (F - 32) / 1.8 + zero_Celsius

/-- `K2F(K) = 1.8*(K - zero_Celsius) + 32.0`, core.py 2690. -/
def K2F (K : ℚ) : ℚ := 1.8 * (K - zero_Celsius) + 32

/-- `C2R(C) = 1.8 * (C + zero_Celsius)`, core.py 2720. -/
def C2R (C : ℚ) : ℚ := 1.8 * (C + zero_Celsius)

/-- `K2R(K) = 1.8 * K`, core.py 2748. -/
def K2R (K : ℚ) : ℚ := 1.8 * K

/-- `F2R(F) = F - 32.0 + 1.8 * zero_Celsius`, core.py 2778. -/
def F2R (F : ℚ) : ℚ := F - 32 + 1.8 * zero_Celsius

/-- `R2C(Ra) = Ra / 1.8 - zero_Celsius`, core.py 2808. -/
def R2C (Ra : ℚ) : ℚ := Ra / 1.8 - zero_Celsius

/-- `R2K(Ra) = Ra / 1.8`, core.py 2836. -/
def R2K (Ra : ℚ) : ℚ := Ra / 1.8

/-- `R2F(Ra) = Ra - 1.8 * zero_Celsius + 32.0`, core.py 2866. -/
def R2F (Ra : ℚ) : ℚ := Ra - 1.8 * zero_Celsius + 32

/-- Modelled from the spec: the standard gravitational acceleration
constant `g` imported from `fluids.constants`, a module not present in
the sources; the spec gives `g ≈ 9.80665 m/s²`. -/
def g_std : ℝ := 9.80665

/-- `Froude(V, L, g=g, squared=False)`, core.py 1028-1077:
`Fr = V/(L*g)**0.5; if squared: Fr *= Fr; return Fr`.  The fractional
power `**0.5` of a nonnegative float is its square root. -/
noncomputable def Froude (V L g : ℝ) (squared : Bool) : ℝ :=
  let Fr := V / Real.sqrt (L * g)
  if squared then Fr * Fr else Fr

/-- `Froude_densimetric(V, L, rho1, rho2, heavy=True, g=g)`, core.py
1080-1147: `rho3 = rho1 if heavy else rho2;
return V/((g*L)**0.5)*(rho3/(rho1 - rho2))**0.5`. -/
noncomputable def Froude_densimetric (V L rho1 rho2 : ℝ) (heavy : Bool) (g : ℝ) : ℝ :=
  let rho3 := if heavy then rho1 else rho2
  V / Real.sqrt (g * L) * Real.sqrt (rho3 / (rho1 - rho2))

/-- `gravity(latitude, H)`, core.py 2202-2238: `lat = latitude*pi/180;
return 9.780356*(1+0.0052885*sin(lat)**2 - 0.0000059*sin(2*lat)**2)
- 3.086E-6*H`. -/
noncomputable def gravity (latitude H : ℝ) : ℝ :=
  let lat := latitude * Real.pi / 180
  9.780356 * (1 + 0.0052885 * Real.sin lat ^ 2 - 0.0000059 * Real.sin (2 * lat) ^ 2)
    - 3.086e-6 * H

/-- C8: `dP_from_K(K, rho, V)` equals `0.5*K*rho*V^2` for all inputs, and
`dP_from_K(K=10, rho=1000, V=3)` returns exactly `45000`. -/
theorem dP_from_K_formula :
    (∀ K rho V : ℚ, dP_from_K K rho V = 0.5 * K * rho * V ^ 2) ∧
    dP_from_K 10 1000 3 = 45000 := by
  constructor
  · intro K rho V
    simp only [dP_from_K]
    ring
  · simp only [dP_from_K]
    norm_num

/-- C4: for every rational `x` and each of the 12 ordered pairs of
temperature scales among Celsius, Kelvin, Fahrenheit and Rankine,
converting `x` from the first scale to the second and back returns `x`
exactly (the conversions are affine maps over exact arithmetic). -/
theorem temperature_roundtrips (x : ℚ) :
    K2C (C2K x) = x ∧ C2K (K2C x) = x ∧
    F2C (C2F x) = x ∧ C2F (F2C x) = x ∧
    R2C (C2R x) = x ∧ C2R (R2C x) = x ∧
    F2K (K2F x) = x ∧ K2F (F2K x) = x ∧
    R2K (K2R x) = x ∧ K2R (R2K x) = x ∧
    R2F (F2R x) = x ∧ F2R (R2F x) = x := by
  refine ⟨?_, ?_, ?_, ?_, ?_, ?_, ?_, ?_, ?_, ?_, ?_, ?_⟩ <;>
    simp only [K2C, C2K, F2C, C2F, R2C, C2R, F2K, K2F, R2K, K2R, R2F, F2R,
      zero_Celsius] <;>
    ring

/-- C10: `gravity` is an even function of latitude: the latitude enters
the formula only through `sin(lat)^2` and `sin(2*lat)^2`, so negating
the latitude leaves the result unchanged. -/
theorem gravity_even_in_latitude (latitude H : ℝ) :
    gravity (-latitude) H = gravity latitude H := by
  simp only [gravity]
  have h : -latitude * Real.pi / 180 = -(latitude * Real.pi / 180) := by ring
  rw [h, Real.sin_neg, mul_neg, Real.sin_neg]
  ring

/-- C2: an input supplied as `0` is falsy, so it makes its route
unavailable exactly as if it were absent: supplying `rho = 0` to any of
the multi-route functions behaves like omitting `rho` (and likewise for
the other replaced inputs below); in particular
`Reynolds(V, D, rho=0, mu, nu)` with nonzero `nu` falls through to the
`nu` route and returns `V*D/nu`, and
`Peclet_heat(V, L, rho=0, Cp, k)` with `alpha` absent fails even though
`rho`, `Cp`, `k` were all supplied. -/
theorem zero_input_disables_route :
    (∀ V D mu nu, Reynolds V D (some 0) mu nu = Reynolds V D none mu nu) ∧
    (∀ V D mu nuv : ℚ, nuv ≠ 0 →
      Reynolds V D (some 0) (some mu) (some nuv) = Except.ok (V * D / nuv)) ∧
    (∀ V L Cp k : ℚ,
      Peclet_heat V L (some 0) (some Cp) (some k) none = Except.error peclet_msg) ∧
    (∀ V L Cp k alpha, Peclet_heat V L (some 0) Cp k alpha = Peclet_heat V L none Cp k alpha) ∧
    (∀ t L Cp k alpha, Fourier_heat t L (some 0) Cp k alpha = Fourier_heat t L none Cp k alpha) ∧
    (∀ V D x Cp k alpha,
      Graetz_heat V D x (some 0) Cp k alpha = Graetz_heat V D x none Cp k alpha) ∧
    (∀ D nu rho, Schmidt D (some 0) nu rho = Schmidt D none nu rho) ∧
    (∀ D alpha Cp rho, Lewis D alpha Cp (some 0) rho = Lewis D alpha Cp none rho) ∧
    (∀ Cp k nu rho alpha, Prandtl Cp k (some 0) nu rho alpha = Prandtl Cp k none nu rho alpha) ∧
    (∀ L beta T1 T2 mu nu g,
      Grashof L beta T1 T2 (some 0) mu nu g = Grashof L beta T1 T2 none mu nu g) := by
  refine ⟨?_, ?_, ?_, ?_, ?_, ?_, ?_, ?_, ?_, ?_⟩
  · intro V D mu nu
    simp [Reynolds, truthy]
  · intro V D mu nuv h
    simp [Reynolds, truthy, getv, h]
  · intro V L Cp k
    simp [Peclet_heat, truthy]
  · intro V L Cp k alpha
    simp [Peclet_heat, truthy]
  · intro t L Cp k alpha
    simp [Fourier_heat, truthy]
  · intro V D x Cp k alpha
    simp [Graetz_heat, truthy]
  · intro D nu rho
    simp [Schmidt, truthy]
  · intro D alpha Cp rho
    simp [Lewis, truthy]
  · intro Cp k nu rho alpha
    simp [Prandtl, truthy]
  · intro L beta T1 T2 mu nu g
    simp [Grashof, truthy]

/-- Witness for C2 at concrete inputs. -/
theorem zero_input_disables_route_witness :
    Reynolds 1 2 (some 0) (some 3) (some 4) = Except.ok (1 * 2 / 4) :=
  zero_input_disables_route.2.1 1 2 3 4 (by norm_num)

/-- C3 (counterexample): the claim asserts that when no route is
available the error message names the acceptable input sets, and offers
`Schmidt(D)` with `mu`, `nu`, `rho` absent as an instance; but the
message `Schmidt` raises is the generic
`Insufficient information provided for Schmidt number calculation`,
which names none of the words used for its inputs (no `density`, no
`viscosity`, no `diffusivity`). -/
theorem schmidt_error_message_generic :
    Schmidt 1 none none none = Except.error schmidt_msg ∧
    mentions density_w schmidt_msg = false ∧
    mentions viscosity_w schmidt_msg = false ∧
    mentions diffusivity_w schmidt_msg = false :=
  ⟨rfl, by decide, by decide, by decide⟩

set_option maxRecDepth 40000 in
/-- C3 (amended): for every multi-route function, if no route is
available (for each route, some input is absent or falsy) the call
fails with an error; for `Reynolds`, `Peclet_heat`, `Fourier_heat`,
`Graetz_heat` and `Grashof` the message names the acceptable input
sets, while `Schmidt`, `Lewis` and `Prandtl` raise a generic
`Insufficient information` message that does not. -/
theorem missing_input_error_behavior :
    (∀ V D rho mu nu, (truthy rho && truthy mu) = false → truthy nu = false →
      Reynolds V D rho mu nu = Except.error reynolds_msg) ∧
    (∀ V L rho Cp k alpha, (truthy rho && truthy Cp && truthy k) = false →
      truthy alpha = false → Peclet_heat V L rho Cp k alpha = Except.error peclet_msg) ∧
    (∀ t L rho Cp k alpha, (truthy rho && truthy Cp && truthy k) = false →
      truthy alpha = false → Fourier_heat t L rho Cp k alpha = Except.error fourier_msg) ∧
    (∀ V D x rho Cp k alpha, (truthy rho && truthy Cp && truthy k) = false →
      truthy alpha = false → Graetz_heat V D x rho Cp k alpha = Except.error peclet_msg) ∧
    (∀ D mu nu rho, (truthy rho && truthy mu) = false → truthy nu = false →
      Schmidt D mu nu rho = Except.error schmidt_msg) ∧
    (∀ D alpha Cp k rho, (truthy k && truthy Cp && truthy rho) = false →
      truthy alpha = false → Lewis D alpha Cp k rho = Except.error lewis_msg) ∧
    (∀ Cp k mu nu rho alpha, (truthy k && truthy Cp && truthy mu) = false →
      (truthy nu && truthy rho && truthy Cp && truthy k) = false →
      (truthy nu && truthy alpha) = false →
      Prandtl Cp k mu nu rho alpha = Except.error prandtl_msg) ∧
    (∀ L beta T1 T2 rho mu nu g, (truthy rho && truthy mu) = false → truthy nu = false →
      Grashof L beta T1 T2 rho mu nu g = Except.error grashof_msg) ∧
    (mentions density_w reynolds_msg = true ∧ mentions viscosity_w reynolds_msg = true ∧
      mentions dynamic_viscosity_w reynolds_msg = true) ∧
    (mentions heat_capacity_w peclet_msg = true ∧
      mentions thermal_conductivity_w peclet_msg = true ∧
      mentions density_w peclet_msg = true ∧
      mentions thermal_diffusivity_w peclet_msg = true) ∧
    (mentions heat_capacity_w fourier_msg = true ∧
      mentions thermal_conductivity_w fourier_msg = true ∧
      mentions density_w fourier_msg = true ∧
      mentions thermal_diffusivity_w fourier_msg = true) ∧
    (mentions density_w grashof_msg = true ∧ mentions viscosity_w grashof_msg = true) ∧
    (mentions density_w lewis_msg = false ∧ mentions viscosity_w lewis_msg = false ∧
      mentions diffusivity_w lewis_msg = false ∧
      mentions density_w prandtl_msg = false ∧ mentions viscosity_w prandtl_msg = false ∧
      mentions diffusivity_w prandtl_msg = false) := by
  refine ⟨?_, ?_, ?_, ?_, ?_, ?_, ?_, ?_, ?_, ?_, ?_, ?_, ?_⟩
  · intro V D rho mu nu h1 h2
    simp [Reynolds, h1, h2]
  · intro V L rho Cp k alpha h1 h2
    simp [Peclet_heat, h1, h2]
  · intro t L rho Cp k alpha h1 h2
    simp [Fourier_heat, h1, h2]
  · intro V D x rho Cp k alpha h1 h2
    simp [Graetz_heat, h1, h2]
  · intro D mu nu rho h1 h2
    simp [Schmidt, h1, h2]
  · intro D alpha Cp k rho h1 h2
    simp [Lewis, h1, h2]
  · intro Cp k mu nu rho alpha h1 h2 h3
    simp [Prandtl, h1, h2, h3]
  · intro L beta T1 T2 rho mu nu g h1 h2
    simp [Grashof, h1, h2]
  · exact ⟨by decide, by decide, by decide⟩
  · exact ⟨by decide, by decide, by decide, by decide⟩
  · exact ⟨by decide, by decide, by decide, by decide⟩
  · exact ⟨by decide, by decide⟩
  · exact ⟨by decide, by decide, by decide, by decide, by decide, by decide⟩

/-- Witness for C3 at concrete inputs. -/
theorem missing_input_error_behavior_witness :
    Reynolds 1 1 none none none = Except.error reynolds_msg :=
  missing_input_error_behavior.1 1 1 none none none rfl rfl

/-- C1: for every multi-route function, the routes are tried strictly
in the documented priority order: whenever the first-listed route's
inputs are all supplied and truthy, its formula determines the result
regardless of what is supplied for the later routes' inputs (so the
call with all routes' inputs agrees with the first route in
isolation); e.g. `Reynolds V D rho mu nu = ok (V*D*rho/mu)` for truthy
`rho`, `mu` and arbitrary `nu`.  For `Prandtl` the second-listed route
likewise takes precedence over the third. -/
theorem first_route_priority :
    (∀ V D rho mu nu, truthy rho = true → truthy mu = true →
      Reynolds V D rho mu nu = Except.ok (V * D * getv rho / getv mu)) ∧
    (∀ Cp k mu nu rho alpha, truthy k = true → truthy Cp = true → truthy mu = true →
      Prandtl Cp k mu nu rho alpha = Except.ok (getv Cp * getv mu / getv k)) ∧
    (∀ Cp k mu nu rho alpha, truthy mu = false → truthy nu = true → truthy rho = true →
      truthy Cp = true → truthy k = true →
      Prandtl Cp k mu nu rho alpha = Except.ok (getv nu * getv rho * getv Cp / getv k)) ∧
    (∀ V L rho Cp k alpha, truthy rho = true → truthy Cp = true → truthy k = true →
      Peclet_heat V L rho Cp k alpha = Except.ok (V * L * (getv rho * getv Cp) / getv k)) ∧
    (∀ t L rho Cp k alpha, truthy rho = true → truthy Cp = true → truthy k = true →
      Fourier_heat t L rho Cp k alpha
        = Except.ok (t * (getv k / (getv rho * getv Cp)) / L ^ 2)) ∧
    (∀ V D x rho Cp k alpha, truthy rho = true → truthy Cp = true → truthy k = true →
      Graetz_heat V D x rho Cp k alpha
        = Except.ok (V * D ^ 2 / (x * (getv k / (getv rho * getv Cp))))) ∧
    (∀ D mu nu rho, truthy rho = true → truthy mu = true →
      Schmidt D mu nu rho = Except.ok (getv mu / (getv rho * D))) ∧
    (∀ D alpha Cp k rho, truthy k = true → truthy Cp = true → truthy rho = true →
      Lewis D alpha Cp k rho = Except.ok (getv k / (getv rho * getv Cp) / getv D)) ∧
    (∀ L beta T1 T2 rho mu nu g, truthy rho = true → truthy mu = true →
      Grashof L beta T1 T2 rho mu nu g
        = Except.ok (g * beta * abs (T2 - T1) * L ^ 3 * getv rho ^ 2 / getv mu ^ 2)) := by
  refine ⟨?_, ?_, ?_, ?_, ?_, ?_, ?_, ?_, ?_⟩
  · intro V D rho mu nu h1 h2
    simp [Reynolds, h1, h2, div_div_eq_mul_div]
  · intro Cp k mu nu rho alpha h1 h2 h3
    simp [Prandtl, h1, h2, h3]
  · intro Cp k mu nu rho alpha h1 h2 h3 h4 h5
    simp [Prandtl, h1, h2, h3, h4, h5]
  · intro V L rho Cp k alpha h1 h2 h3
    simp [Peclet_heat, h1, h2, h3, div_div_eq_mul_div]
  · intro t L rho Cp k alpha h1 h2 h3
    simp [Fourier_heat, h1, h2, h3]
  · intro V D x rho Cp k alpha h1 h2 h3
    simp [Graetz_heat, h1, h2, h3]
  · intro D mu nu rho h1 h2
    simp [Schmidt, h1, h2]
  · intro D alpha Cp k rho h1 h2 h3
    simp [Lewis, h1, h2, h3]
  · intro L beta T1 T2 rho mu nu g h1 h2
    simp [Grashof, h1, h2, div_pow, div_div_eq_mul_div]

/-- Witness for C1 at concrete inputs. -/
theorem first_route_priority_witness :
    Reynolds 2 3 (some 5) (some 7) (some 11) = Except.ok (30 / 7) := by
  have h := first_route_priority.1 2 3 (some 5) (some 7) (some 11) (by decide) (by decide)
  rw [h]
  norm_num [getv]

/-- C7: on the `nu` route `Grashof` returns
`g*beta*|T2-T1|*L^3/nu^2`; the temperature difference enters through
its absolute value, so exchanging `T1` and `T2` never changes the
result; on the `rho`,`mu` route the result is
`g*beta*|T2-T1|*L^3*rho^2/mu^2`; and with `T2` left at its Python
default `0` the difference used is `|T1|`. -/
theorem grashof_formula :
    (∀ L beta T1 T2 nuv g : ℚ, nuv ≠ 0 →
      Grashof L beta T1 T2 none none (some nuv) g
        = Except.ok (g * beta * abs (T2 - T1) * L ^ 3 / nuv ^ 2)) ∧
    (∀ L beta T1 T2 rho mu nu g,
      Grashof L beta T1 T2 rho mu nu g = Grashof L beta T2 T1 rho mu nu g) ∧
    (∀ L beta T1 T2 rho mu nu g, truthy rho = true → truthy mu = true →
      Grashof L beta T1 T2 rho mu nu g
        = Except.ok (g * beta * abs (T2 - T1) * L ^ 3 * getv rho ^ 2 / getv mu ^ 2)) ∧
    (∀ L beta T1 nuv g : ℚ, nuv ≠ 0 →
      Grashof L beta T1 0 none none (some nuv) g
        = Except.ok (g * beta * abs T1 * L ^ 3 / nuv ^ 2)) := by
  refine ⟨?_, ?_, ?_, ?_⟩
  · intro L beta T1 T2 nuv g h
    simp [Grashof, truthy, getv, h]
  · intro L beta T1 T2 rho mu nu g
    simp only [Grashof, abs_sub_comm T2 T1]
  · intro L beta T1 T2 rho mu nu g h1 h2
    simp [Grashof, h1, h2, div_pow, div_div_eq_mul_div]
  · intro L beta T1 nuv g h
    simp [Grashof, truthy, getv, h, zero_sub, abs_neg]

/-- Witness for C7 at concrete inputs. -/
theorem grashof_formula_witness :
    Grashof 1 1 1 2 none none (some 3) 1
      = Except.ok (1 * 1 * abs ((2 : ℚ) - 1) * 1 ^ 3 / 3 ^ 2) :=
  grashof_formula.1 1 1 1 2 3 1 (by norm_num)

/-- C9: `nu_mu_converter(rho, mu, nu)` errors exactly when both `mu`
and `nu` are truthy, or `rho` is falsy (`rho = 0`), or neither `mu` nor
`nu` is truthy; otherwise it returns `mu/rho` when `mu` is truthy and
`nu*rho` when only `nu` is truthy. -/
theorem nu_mu_converter_spec :
    (∀ (rho : ℚ) (mu nu : Option ℚ),
      isErr (nu_mu_converter rho mu nu) = true ↔
        (truthy mu = true ∧ truthy nu = true) ∨ rho = 0 ∨
          (truthy mu = false ∧ truthy nu = false)) ∧
    (∀ (rho m : ℚ) (nu : Option ℚ), rho ≠ 0 → m ≠ 0 → truthy nu = false →
      nu_mu_converter rho (some m) nu = Except.ok (m / rho)) ∧
    (∀ (rho n : ℚ) (mu : Option ℚ), rho ≠ 0 → n ≠ 0 → truthy mu = false →
      nu_mu_converter rho mu (some n) = Except.ok (n * rho)) := by
  refine ⟨?_, ?_, ?_⟩
  · intro rho mu nu
    cases hm : truthy mu <;> cases hn : truthy nu <;> by_cases hr : rho = 0 <;>
      simp [nu_mu_converter, isErr, hm, hn, hr]
  · intro rho m nu hr hm hn
    have htm : truthy (some m) = true := by simp [truthy, hm]
    simp [nu_mu_converter, getv, hr, htm, hn]
  · intro rho n mu hr hn hm
    have htn : truthy (some n) = true := by simp [truthy, hn]
    simp [nu_mu_converter, getv, hr, htn, hm]

/-- Witness for C9 at concrete inputs. -/
theorem nu_mu_converter_spec_witness :
    nu_mu_converter 2 (some 3) none = Except.ok (3 / 2) :=
  nu_mu_converter_spec.2.1 2 3 none (by norm_num) (by norm_num) rfl

/-- C5: the `squared=True` mode of `Froude` returns exactly the square
of the `squared=False` mode; concretely
`Froude(V=1.83, L=2., g=1.63)` lies in `[1.01354, 1.01355)` (the
source's `1.01354...`) and `Froude(V=1.83, L=2., squared=True)` with
`g` left at standard gravity lies in `[0.17074, 0.17075)` (the
source's `0.17074...`). -/
theorem froude_squared_mode :
    (∀ V L g : ℝ, 0 < g * L → Froude V L g true = (Froude V L g false) ^ 2) ∧
    (1.01354 ≤ Froude 1.83 2 1.63 false ∧ Froude 1.83 2 1.63 false < 1.01355) ∧
    (0.17074 ≤ Froude 1.83 2 g_std true ∧ Froude 1.83 2 g_std true < 0.17075) := by
  refine ⟨?_, ?_, ?_⟩
  · intro V L g h
    simp [Froude]
    ring
  · have h0 : (0 : ℝ) < Real.sqrt (2 * 1.63) := Real.sqrt_pos.mpr (by norm_num)
    have hs1 : Real.sqrt (2 * 1.63) < 1.80555 :=
      (Real.sqrt_lt' (by norm_num)).mpr (by norm_num)
    have hs2 : (1.80554 : ℝ) < Real.sqrt (2 * 1.63) :=
      (Real.lt_sqrt (by norm_num)).mpr (by norm_num)
    have hf : Froude 1.83 2 1.63 false = 1.83 / Real.sqrt (2 * 1.63) := by
      simp [Froude]
    constructor
    · rw [hf, le_div_iff₀ h0]
      nlinarith [hs1]
    · rw [hf, div_lt_iff₀ h0]
      nlinarith [hs2]
  · have hf : Froude 1.83 2 g_std true = 1.83 * 1.83 / (2 * 9.80665) := by
      simp only [Froude, g_std, if_true]
      rw [div_mul_div_comm, Real.mul_self_sqrt (by norm_num)]
    rw [hf]
    constructor <;> norm_num

/-- Witness for C5 at concrete inputs. -/
theorem froude_squared_mode_witness :
    Froude 1 1 1 true = (Froude 1 1 1 false) ^ 2 :=
  froude_squared_mode.1 1 1 1 (by norm_num)

/-- C6: `Froude_densimetric` computes
`V/sqrt(g*L) * sqrt(rho_num/(rho1-rho2))` with `rho_num = rho1` when
`heavy` and `rho_num = rho2` otherwise; `rho1 ≥ rho2` is only a
precondition — nothing validates it, and when `rho1 < rho2` (with a
positive numerator density) the square-root argument is negative. -/
theorem froude_densimetric_formula :
    (∀ (V L rho1 rho2 g : ℝ) (heavy : Bool), 0 < g → 0 < L → rho2 < rho1 →
      Froude_densimetric V L rho1 rho2 heavy g
        = V / Real.sqrt (g * L) * Real.sqrt ((if heavy then rho1 else rho2) / (rho1 - rho2))) ∧
    (∀ rho1 rho2 : ℝ, 0 < rho1 → rho1 < rho2 → rho1 / (rho1 - rho2) < 0) := by
  constructor
  · intro V L rho1 rho2 g heavy hg hL hrho
    simp only [Froude_densimetric]
  · intro rho1 rho2 h1 h2
    exact div_neg_of_pos_of_neg h1 (by linarith)

/-- Witness for C6 at concrete inputs. -/
theorem froude_densimetric_formula_witness :
    Froude_densimetric 1 1 2 1 true 1
      = 1 / Real.sqrt (1 * 1) * Real.sqrt ((if true then (2 : ℝ) else 1) / (2 - 1)) :=
  froude_densimetric_formula.1 1 1 2 1 1 true (by norm_num) (by norm_num) (by norm_num)

end Fluids
